import Mathlib

/-!
Verification development for the Local Food Wastage Management System.

The development shallowly embeds the ingestion pipeline
(`src/database/data_loader.py`), the connection layer
(`src/database/connection.py`) and the analytical query catalog
(`src/analysis/sql_queries.py`) over the four SQLite tables declared in
`src/database/create_tables.py`.  SQL numeric expressions are modelled over
`ℚ`; SQLite `NULL` is modelled with `Option`; SQLite yields `NULL` (not an
error) for division by zero, which `sqlDiv` reflects.
-/

namespace FoodWastage

/-- A row of the `providers` table (`create_tables.py`): all columns are
`NOT NULL`; `provider_id` is the primary key. -/
structure Provider where
  provider_id : Int
  name : String
  type : String
  address : String
  city : String
  contact : String
deriving DecidableEq

/-- A row of the `receivers` table. -/
structure Receiver where
  receiver_id : Int
  name : String
  type : String
  city : String
  contact : String
deriving DecidableEq

/-- A row of the `food_listings` table.  The schema further imposes
`CHECK (quantity > 0)` and enum CHECKs on `food_type` and `meal_type`,
modelled by `foodListingOk` below. -/
structure FoodListing where
  food_id : Int
  food_name : String
  quantity : Int
  expiry_date : String
  provider_id : Int
  provider_type : String
  location : String
  food_type : String
  meal_type : String
deriving DecidableEq

/-- A row of the `claims` table; `status` is CHECK-constrained to
`Pending`, `Completed` or `Cancelled`. -/
structure Claim where
  claim_id : Int
  food_id : Int
  receiver_id : Int
  status : String
  timestamp : String
deriving DecidableEq

/-- The state of the relational store: the four tables. -/
structure DB where
  providers : List Provider
  receivers : List Receiver
  food_listings : List FoodListing
  claims : List Claim
deriving DecidableEq

/-! ## Schema constraints (create_tables.py)

SQLite enforces the per-row CHECK constraints and primary-key uniqueness at
insert time.  FOREIGN KEY clauses are declared but not enforced: the code
never issues `PRAGMA foreign_keys = ON`, which is why
`DataLoader.verify_data_integrity` exists as an advisory post-load pass. -/

/-- CHECK constraints of `providers`: only NOT NULL columns, which the
typed model satisfies by construction. -/
def providerOk (_ : Provider) : Bool := true

/-- CHECK constraints of `receivers`. -/
def receiverOk (_ : Receiver) : Bool := true

/-- CHECK constraints of `food_listings`:
`quantity > 0`, `food_type IN ('Vegetarian','Non-Vegetarian','Vegan')`,
`meal_type IN ('Breakfast','Lunch','Dinner','Snacks')`. -/
def foodListingOk (f : FoodListing) : Bool :=
  decide (0 < f.quantity) &&
  decide (f.food_type ∈ (["Vegetarian", "Non-Vegetarian", "Vegan"] : List String)) &&
  decide (f.meal_type ∈ (["Breakfast", "Lunch", "Dinner", "Snacks"] : List String))

/-- CHECK constraint of `claims`:
`status IN ('Pending','Completed','Cancelled')`. -/
def claimOk (c : Claim) : Bool :=
  decide (c.status ∈ (["Pending", "Completed", "Cancelled"] : List String))

/-! ## DatabaseManager (connection.py)

Each operation opens its own connection (`get_connection`), which can fail;
on failure the operation returns a null/absent result instead of raising.
`execute_query` runs one statement and commits; in the shallow embedding a
statement is given by its write effect `eff` on the store and the rows
`rows` that `cursor.fetchall()` returns afterwards. -/

/-- Connection acquisition (`DatabaseManager.get_connection`): `none` models
the `sqlite3.Error` branch that prints and returns `None`. -/
def get_connection (connOk : Bool) : Option Unit :=
  if connOk then some () else none

/-- `DatabaseManager.execute_query`: on a dead connection returns `None`
with the store untouched; otherwise applies the statement's effect, commits
and returns the fetched rows. -/
def execute_query {ρ : Type} (connOk : Bool) (eff : DB → DB) (rows : DB → List ρ)
    (db : DB) : Option (List ρ) × DB :=
  match get_connection connOk with
  | none => (none, db)
  | some _ => (some (rows (eff db)), eff db)

/-- Success condition of a batched `INSERT` (`cursor.executemany`): every
row passes the table's CHECK constraints and no primary key collides,
neither inside the batch nor with the existing rows. -/
def insert_allowed {α : Type} (rowOk : α → Bool) (pk : α → Int)
    (table rows : List α) : Bool :=
  rows.all rowOk &&
  decide ((rows.map pk).Nodup) &&
  decide (∀ p ∈ rows.map pk, p ∉ table.map pk)

/-- `DatabaseManager.execute_many`: dead connection yields `False`; a
constraint violation raises `sqlite3.Error` mid-batch, the transaction is
never committed and `conn.close()` discards it, so the table is unchanged;
otherwise the whole batch is appended and committed. -/
def execute_many {α : Type} (connOk : Bool) (rowOk : α → Bool) (pk : α → Int)
    (table rows : List α) : Bool × List α :=
  match get_connection connOk with
  | none => (false, table)
  | some _ =>
    if insert_allowed rowOk pk table rows then (true, table ++ rows)
    else (false, table)

/-- `DatabaseManager.fetch_dataframe`: dead connection yields `None`;
otherwise `pd.read_sql_query` executes one `SELECT` statement, which
performs no writes, and its result is returned as a dataframe. -/
def fetch_dataframe {ρ : Type} (connOk : Bool) (eval : DB → ρ) (db : DB) :
    Option ρ × DB :=
  match get_connection connOk with
  | none => (none, db)
  | some _ => (some (eval db), db)

/-! ## DataLoader (data_loader.py)

The processed-data directory is modelled by four optional parsed files; a
`none` entry models `load_csv_to_dataframe` returning `None` because the
file is absent (or unreadable).  The `int(...)`/`str(...)` field coercions
of the loader are identities on the typed records, except for the optional
`contact` column where `pd.notna` substitutes the empty-string sentinel. -/

/-- A record of `providers_cleaned.csv`: `contact` may be missing (NaN). -/
structure ProviderRow where
  provider_id : Int
  name : String
  type : String
  address : String
  city : String
  contact : Option String
deriving DecidableEq

/-- A record of `receivers_cleaned.csv`. -/
structure ReceiverRow where
  receiver_id : Int
  name : String
  type : String
  city : String
  contact : Option String
deriving DecidableEq

/-- The processed-data directory: one optional parsed file per table.
`food_listings_cleaned.csv` and `claims_cleaned.csv` records carry exactly
the inserted columns, so they are reused as the row types. -/
structure CsvEnv where
  providersFile : Option (List ProviderRow)
  receiversFile : Option (List ReceiverRow)
  foodListingsFile : Option (List FoodListing)
  claimsFile : Option (List Claim)
deriving DecidableEq

/-- Tuple preparation for `providers`:
`str(row['contact']) if pd.notna(row['contact']) else ''`. -/
def toProvider (r : ProviderRow) : Provider :=
  { provider_id := r.provider_id, name := r.name, type := r.type,
    address := r.address, city := r.city, contact := r.contact.getD "" }

/-- Tuple preparation for `receivers`. -/
def toReceiver (r : ReceiverRow) : Receiver :=
  { receiver_id := r.receiver_id, name := r.name, type := r.type,
    city := r.city, contact := r.contact.getD "" }

/-- `DataLoader.load_providers`: missing file aborts with `False`; otherwise
`DELETE FROM providers` on its own connection (result ignored), then one
batched insert of the coerced tuples. -/
def load_providers (connOk : Bool) (env : CsvEnv) (db : DB) : Bool × DB :=
  match env.providersFile with
  | none => (false, db)
  | some rows =>
    let db1 := (execute_query connOk (fun d => { d with providers := [] })
      (fun _ => ([] : List Unit)) db).2
    let tuples := rows.map toProvider
    let res := execute_many connOk providerOk (fun p => p.provider_id)
      db1.providers tuples
    (res.1, { db1 with providers := res.2 })

/-- `DataLoader.load_receivers`. -/
def load_receivers (connOk : Bool) (env : CsvEnv) (db : DB) : Bool × DB :=
  match env.receiversFile with
  | none => (false, db)
  | some rows =>
    let db1 := (execute_query connOk (fun d => { d with receivers := [] })
      (fun _ => ([] : List Unit)) db).2
    let tuples := rows.map toReceiver
    let res := execute_many connOk receiverOk (fun r => r.receiver_id)
      db1.receivers tuples
    (res.1, { db1 with receivers := res.2 })

/-- `DataLoader.load_food_listings`. -/
def load_food_listings (connOk : Bool) (env : CsvEnv) (db : DB) : Bool × DB :=
  match env.foodListingsFile with
  | none => (false, db)
  | some rows =>
    let db1 := (execute_query connOk (fun d => { d with food_listings := [] })
      (fun _ => ([] : List Unit)) db).2
    let res := execute_many connOk foodListingOk (fun f => f.food_id)
      db1.food_listings rows
    (res.1, { db1 with food_listings := res.2 })

/-- `DataLoader.load_claims`. -/
def load_claims (connOk : Bool) (env : CsvEnv) (db : DB) : Bool × DB :=
  match env.claimsFile with
  | none => (false, db)
  | some rows =>
    let db1 := (execute_query connOk (fun d => { d with claims := [] })
      (fun _ => ([] : List Unit)) db).2
    let res := execute_many connOk claimOk (fun c => c.claim_id)
      db1.claims rows
    (res.1, { db1 with claims := res.2 })

/-- The `required_files` list of `DataLoader.load_all_data`. -/
def requiredFiles : List String :=
  ["providers_cleaned.csv", "receivers_cleaned.csv",
   "food_listings_cleaned.csv", "claims_cleaned.csv"]

/-- Existence test `(self.processed_dir / file).exists()`. -/
def fileIsPresent (env : CsvEnv) (name : String) : Bool :=
  if name = "providers_cleaned.csv" then env.providersFile.isSome
  else if name = "receivers_cleaned.csv" then env.receiversFile.isSome
  else if name = "food_listings_cleaned.csv" then env.foodListingsFile.isSome
  else if name = "claims_cleaned.csv" then env.claimsFile.isSome
  else false

/-- The `missing_files` list computed by `DataLoader.load_all_data`. -/
def missing_files (env : CsvEnv) : List String :=
  requiredFiles.filter (fun f => !(fileIsPresent env f))

/-- `DataLoader.load_all_data`: if `missing_files` is nonempty, it is
printed and the run returns `False` before any table is loaded; otherwise
the four loads run in dependency order, tallying `success_count`, and the
run succeeds iff all four did. -/
def load_all_data (connOk : Bool) (env : CsvEnv) (db : DB) : Bool × DB :=
  if missing_files env ≠ [] then (false, db)
  else
    let r1 := load_providers connOk env db
    let r2 := load_receivers connOk env r1.2
    let r3 := load_food_listings connOk env r2.2
    let r4 := load_claims connOk env r3.2
    let success_count : Nat :=
      (if r1.1 then 1 else 0) + (if r2.1 then 1 else 0) +
      (if r3.1 then 1 else 0) + (if r4.1 then 1 else 0)
    (success_count == 4, r4.2)

/-! ## SQL expression semantics

`Option` models SQLite `NULL`.  SQLite division by zero yields `NULL`
rather than an error; aggregates ignore `NULL` inputs and yield `NULL` on
an empty (all-`NULL`) input set; `ROUND(x, 2)` rounds to two decimals. -/

/-- SQLite division: `NULL` on a zero denominator, never an error. -/
def sqlDiv (a b : ℚ) : Option ℚ :=
  if b = 0 then none else some (a / b)

/-- `NULLIF(x, 0)`. -/
def nullif0 (x : ℚ) : Option ℚ :=
  if x = 0 then none else some x

/-- The guarded division pattern `a / NULLIF(b, 0)`. -/
def divNullif (a b : ℚ) : Option ℚ :=
  match nullif0 b with
  | none => none
  | some d => sqlDiv a d

/-- `ROUND(x, 2)`: round to an integer count of hundredths. -/
def round2 (x : ℚ) : ℚ :=
  ((round (x * 100) : ℤ) : ℚ) / 100

/-- `ROUND(e, 2)` applied to a nullable expression. -/
def oround2 (x : Option ℚ) : Option ℚ :=
  x.map round2

/-- `SUM` aggregate: ignores `NULL`s, `NULL` when nothing remains. -/
def sqlSum (vals : List (Option Int)) : Option Int :=
  if (vals.filterMap id).isEmpty then none
  else some (vals.filterMap id).sum

/-- `AVG` aggregate over an integer column. -/
def sqlAvg (vals : List (Option Int)) : Option ℚ :=
  if (vals.filterMap id).isEmpty then none
  else some (((vals.filterMap id).sum : ℚ) / ((vals.filterMap id).length : ℚ))

/-- `MIN` over an integer column. -/
def sqlMinInt (vals : List Int) : Option Int :=
  vals.foldr (fun x acc => match acc with
    | none => some x
    | some y => some (min x y)) none

/-- `MAX` over an integer column. -/
def sqlMaxInt (vals : List Int) : Option Int :=
  vals.foldr (fun x acc => match acc with
    | none => some x
    | some y => some (max x y)) none

/-- `MIN` over a text column (SQLite compares TEXT lexicographically). -/
def sqlMinStr (vals : List String) : Option String :=
  vals.foldr (fun x acc => match acc with
    | none => some x
    | some y => some (if decide (x < y) then x else y)) none

/-- `MAX` over a text column. -/
def sqlMaxStr (vals : List String) : Option String :=
  vals.foldr (fun x acc => match acc with
    | none => some x
    | some y => some (if decide (y < x) then x else y)) none

/-- The recurring pattern `ROUND(num * 100.0 / (SELECT total), 2)` before
rounding: `NULL` when either aggregate is `NULL` or the total is zero. -/
def pctOfTotal (num den : Option Int) : Option ℚ :=
  match num, den with
  | some a, some b => if b = 0 then none else some ((a : ℚ) * 100 / (b : ℚ))
  | _, _ => none

/-- Boolean total order on `String` used for `ORDER BY` on text columns. -/
def strLeB (s t : String) : Bool :=
  !(decide (t < s))

/-- SQL ordering on a nullable integer column: `NULL` sorts below every
value (hence last under `DESC`). -/
def sqlLtOptInt (a b : Option Int) : Bool :=
  match a, b with
  | none, none => false
  | none, some _ => true
  | some _, none => false
  | some x, some y => decide (x < y)

/-- SQL ordering on a nullable rational column. -/
def sqlLtOptQ (a b : Option ℚ) : Bool :=
  match a, b with
  | none, none => false
  | none, some _ => true
  | some _, none => false
  | some x, some y => decide (x < y)

/-- `LEFT JOIN`: every left row survives, paired with each matching right
row, or with `NULL` when none matches. -/
def leftJoin {α β : Type} (ls : List α) (rs : List β) (cond : α → β → Bool) :
    List (α × Option β) :=
  ls.flatMap (fun a =>
    let ms := rs.filter (fun b => cond a b)
    if ms.isEmpty then [(a, none)] else ms.map (fun b => (a, some b)))

/-- `INNER JOIN`. -/
def innerJoin {α β : Type} (ls : List α) (rs : List β) (cond : α → β → Bool) :
    List (α × β) :=
  ls.flatMap (fun a => (rs.filter (fun b => cond a b)).map (fun b => (a, b)))

/-- The distinct grouping keys of `GROUP BY`, in first-scan order as far as
sums are concerned (SQLite leaves group order to `ORDER BY`). -/
def groupKeys {α κ : Type} [DecidableEq κ] (key : α → κ) (l : List α) : List κ :=
  (l.map key).dedup

/-- The rows of one `GROUP BY` group. -/
def groupRows {α κ : Type} [DecidableEq κ] (key : α → κ) (l : List α) (k : κ) :
    List α :=
  l.filter (fun a => decide (key a = k))

/-- Insertion step of the `ORDER BY` sort. -/
def insertSorted {α : Type} (le : α → α → Bool) (x : α) : List α → List α
  | [] => [x]
  | y :: ys => if le x y then x :: y :: ys else y :: insertSorted le x ys

/-- `ORDER BY` as an insertion sort parameterised by a boolean
comes-no-later-than test. -/
def sortByLe {α : Type} (le : α → α → Bool) : List α → List α
  | [] => []
  | x :: xs => insertSorted le x (sortByLe le xs)

/-! ## FoodWastageAnalyzer (sql_queries.py): the fifteen-query catalog

Each `queryNRows` function is the result set of the `SELECT` statement of
`FoodWastageAnalyzer.query_N_...`; each `query_N_...` method wraps it in
`fetch_dataframe` exactly as the source does. -/

/-- Result row of query 1 (providers and receivers per city). -/
structure Q1Row where
  city : String
  providers : Nat
  receivers : Nat
  total_entities : Nat
deriving DecidableEq

/-- `ORDER BY total_entities DESC, city` of query 1. -/
def q1le (x y : Q1Row) : Bool :=
  decide (y.total_entities < x.total_entities) ||
  (decide (y.total_entities = x.total_entities) && strLeB x.city y.city)

/-- Query 1: two per-city grouped counts, `FULL OUTER JOIN`ed on city with
`COALESCE` defaults.  The key set is the union of both cities' key sets. -/
def query1Rows (db : DB) : List Q1Row :=
  let pcities := groupKeys (fun p : Provider => p.city) db.providers
  let rcities := groupKeys (fun r : Receiver => r.city) db.receivers
  let keys := pcities ++ rcities.filter (fun c => decide (c ∉ pcities))
  sortByLe q1le (keys.map (fun c =>
    let pcount := (groupRows (fun p : Provider => p.city) db.providers c).length
    let rcount := (groupRows (fun r : Receiver => r.city) db.receivers c).length
    { city := c, providers := pcount, receivers := rcount,
      total_entities := pcount + rcount }))

/-- Result row of query 2 (top provider types). -/
structure Q2Row where
  provider_type : String
  number_of_providers : Nat
  total_food_listings : Nat
  total_quantity_contributed : Option Int
  avg_quantity_per_listing : Option ℚ
  percentage_of_total_quantity : Option ℚ
deriving DecidableEq

/-- `ORDER BY total_quantity_contributed DESC` of query 2. -/
def q2le (x y : Q2Row) : Bool :=
  sqlLtOptInt y.total_quantity_contributed x.total_quantity_contributed ||
  decide (y.total_quantity_contributed = x.total_quantity_contributed)

/-- Query 2: `providers LEFT JOIN food_listings`, grouped by provider
type. -/
def query2Rows (db : DB) : List Q2Row :=
  let joined := leftJoin db.providers db.food_listings
    (fun p f => decide (p.provider_id = f.provider_id))
  let totalQty := sqlSum (db.food_listings.map (fun f => some f.quantity))
  sortByLe q2le ((groupKeys (fun x => x.1.type) joined).map (fun t =>
    let grp := groupRows (fun x => x.1.type) joined t
    let qtys := grp.map (fun x => x.2.map (fun f => f.quantity))
    { provider_type := t
      number_of_providers := ((grp.map (fun x => x.1.provider_id)).dedup).length
      total_food_listings := (grp.filterMap (fun x => x.2)).length
      total_quantity_contributed := sqlSum qtys
      avg_quantity_per_listing := oround2 (sqlAvg qtys)
      percentage_of_total_quantity := oround2 (pctOfTotal (sqlSum qtys) totalQty) }))

/-- Result row of query 3 (provider contacts by city). -/
structure Q3Row where
  city : String
  total_providers : Nat
  provider_contacts : String
deriving DecidableEq

/-- `ORDER BY total_providers DESC` of query 3. -/
def q3le (x y : Q3Row) : Bool :=
  decide (y.total_providers ≤ x.total_providers)

/-- Query 3: providers grouped by city with `GROUP_CONCAT` of the contact
strings.  The `WHERE city IS NOT NULL AND contact IS NOT NULL` filter is a
tautology on the NOT NULL schema and therefore drops out of the typed
model. -/
def query3Rows (db : DB) : List Q3Row :=
  let keys := groupKeys (fun p : Provider => p.city) db.providers
  sortByLe q3le (keys.map (fun c =>
    let grp := groupRows (fun p : Provider => p.city) db.providers c
    { city := c, total_providers := grp.length,
      provider_contacts := String.intercalate "; "
        (grp.map (fun p => p.name ++ " (" ++ p.type ++ ") - " ++ p.contact)) }))

/-- Result row of query 4 (top food claimers). -/
structure Q4Row where
  receiver_id : Int
  receiver_name : String
  receiver_type : String
  city : String
  contact : String
  total_claims : Nat
  completed_claims : Nat
  pending_claims : Nat
  cancelled_claims : Nat
  success_rate_percentage : Option ℚ
  total_food_received : Option Int
deriving DecidableEq

/-- The `FROM receivers LEFT JOIN claims LEFT JOIN food_listings` source
of query 4; joining through a `NULL` claim matches nothing. -/
def q4Joined (db : DB) : List ((Receiver × Option Claim) × Option FoodListing) :=
  leftJoin
    (leftJoin db.receivers db.claims
      (fun r c => decide (r.receiver_id = c.receiver_id)))
    db.food_listings
    (fun rc f => match rc.2 with
      | some c => decide (c.food_id = f.food_id)
      | none => false)

/-- The `GROUP BY` key of query 4. -/
def q4Key (x : (Receiver × Option Claim) × Option FoodListing) :
    Int × String × String × String × String :=
  (x.1.1.receiver_id, x.1.1.name, x.1.1.type, x.1.1.city, x.1.1.contact)

/-- `COUNT(CASE WHEN c.status = st THEN 1 END)` over a group of query-4
join rows. -/
def q4CountStatus (st : String)
    (grp : List ((Receiver × Option Claim) × Option FoodListing)) : Nat :=
  (grp.filter (fun x => match x.1.2 with
    | some c => decide (c.status = st)
    | none => false)).length

/-- One output row of query 4 for a grouping key. -/
def q4Row (joined : List ((Receiver × Option Claim) × Option FoodListing))
    (k : Int × String × String × String × String) : Q4Row :=
  let grp := groupRows q4Key joined k
  let total_claims := (grp.filterMap (fun x => x.1.2)).length
  let completed := q4CountStatus "Completed" grp
  { receiver_id := k.1, receiver_name := k.2.1, receiver_type := k.2.2.1,
    city := k.2.2.2.1, contact := k.2.2.2.2,
    total_claims := total_claims,
    completed_claims := completed,
    pending_claims := q4CountStatus "Pending" grp,
    cancelled_claims := q4CountStatus "Cancelled" grp,
    success_rate_percentage :=
      oround2 (sqlDiv ((completed : ℚ) * 100) (total_claims : ℚ)),
    total_food_received := sqlSum (grp.map (fun x => match x.1.2 with
      | some c =>
        if decide (c.status = "Completed") then x.2.map (fun f => f.quantity)
        else some 0
      | none => some 0)) }

/-- `ORDER BY total_food_received DESC, total_claims DESC` of query 4. -/
def q4le (x y : Q4Row) : Bool :=
  sqlLtOptInt y.total_food_received x.total_food_received ||
  (decide (y.total_food_received = x.total_food_received) &&
    decide (y.total_claims ≤ x.total_claims))

/-- Query 4 with its `HAVING total_claims > 0` filter and `LIMIT 20`. -/
def query4Rows (db : DB) : List Q4Row :=
  let joined := q4Joined db
  let rows := (groupKeys q4Key joined).map (q4Row joined)
  (sortByLe q4le (rows.filter (fun r => decide (0 < r.total_claims)))).take 20

/-- Result row of query 5 (total food available). -/
structure Q5Row where
  total_food_items : Nat
  total_quantity_available : Option Int
  contributing_providers : Nat
  locations_covered : Nat
  avg_quantity_per_item : Option ℚ
  min_quantity : Option Int
  max_quantity : Option Int
  items_not_expired : Nat
  items_expired : Nat
deriving DecidableEq

/-- Query 5: one aggregate row over `food_listings`; `date('now')` is an
injected current-date string compared lexicographically as SQLite compares
TEXT dates. -/
def query5Rows (now : String) (db : DB) : List Q5Row :=
  let fl := db.food_listings
  [{ total_food_items := fl.length,
     total_quantity_available := sqlSum (fl.map (fun f => some f.quantity)),
     contributing_providers := ((fl.map (fun f => f.provider_id)).dedup).length,
     locations_covered := ((fl.map (fun f => f.location)).dedup).length,
     avg_quantity_per_item := oround2 (sqlAvg (fl.map (fun f => some f.quantity))),
     min_quantity := sqlMinInt (fl.map (fun f => f.quantity)),
     max_quantity := sqlMaxInt (fl.map (fun f => f.quantity)),
     items_not_expired := (fl.filter (fun f => decide (now < f.expiry_date))).length,
     items_expired := (fl.filter (fun f => decide (f.expiry_date ≤ now))).length }]

/-- Result row of query 6 (food listings by city). -/
structure Q6Row where
  city : String
  total_listings : Nat
  total_quantity : Option Int
  unique_providers : Nat
  food_type_variety : Nat
  meal_type_variety : Nat
  avg_quantity_per_listing : Option ℚ
  percentage_of_total_food : Option ℚ
deriving DecidableEq

/-- `ORDER BY total_quantity DESC, total_listings DESC` of query 6. -/
def q6le (x y : Q6Row) : Bool :=
  sqlLtOptInt y.total_quantity x.total_quantity ||
  (decide (y.total_quantity = x.total_quantity) &&
    decide (y.total_listings ≤ x.total_listings))

/-- Query 6: `food_listings` grouped by location. -/
def query6Rows (db : DB) : List Q6Row :=
  let fl := db.food_listings
  let totalQty := sqlSum (fl.map (fun f => some f.quantity))
  sortByLe q6le ((groupKeys (fun f : FoodListing => f.location) fl).map (fun c =>
    let grp := groupRows (fun f : FoodListing => f.location) fl c
    let s := sqlSum (grp.map (fun f => some f.quantity))
    { city := c,
      total_listings := grp.length,
      total_quantity := s,
      unique_providers := ((grp.map (fun f => f.provider_id)).dedup).length,
      food_type_variety := ((grp.map (fun f => f.food_type)).dedup).length,
      meal_type_variety := ((grp.map (fun f => f.meal_type)).dedup).length,
      avg_quantity_per_listing :=
        oround2 (sqlAvg (grp.map (fun f => some f.quantity))),
      percentage_of_total_food := oround2 (pctOfTotal s totalQty) }))

/-- Result row of query 7 (common food types). -/
structure Q7Row where
  food_type : String
  number_of_listings : Nat
  total_quantity : Option Int
  avg_quantity_per_listing : Option ℚ
  providers_offering : Nat
  cities_available : Nat
  percentage_of_listings : Option ℚ
  percentage_of_total_quantity : Option ℚ
deriving DecidableEq

/-- One output row of query 7 for a food type. -/
def q7Row (db : DB) (t : String) : Q7Row :=
  let fl := db.food_listings
  let grp := groupRows (fun f : FoodListing => f.food_type) fl t
  let s := sqlSum (grp.map (fun f => some f.quantity))
  { food_type := t,
    number_of_listings := grp.length,
    total_quantity := s,
    avg_quantity_per_listing := oround2 (sqlAvg (grp.map (fun f => some f.quantity))),
    providers_offering := ((grp.map (fun f => f.provider_id)).dedup).length,
    cities_available := ((grp.map (fun f => f.location)).dedup).length,
    percentage_of_listings :=
      oround2 (sqlDiv ((grp.length : ℚ) * 100) (fl.length : ℚ)),
    percentage_of_total_quantity :=
      oround2 (pctOfTotal s (sqlSum (fl.map (fun f => some f.quantity)))) }

/-- `ORDER BY total_quantity DESC` of query 7. -/
def q7le (x y : Q7Row) : Bool :=
  sqlLtOptInt y.total_quantity x.total_quantity ||
  decide (y.total_quantity = x.total_quantity)

/-- Query 7 rows before `ORDER BY`: one per distinct food type. -/
def q7rowsUnsorted (db : DB) : List Q7Row :=
  (groupKeys (fun f : FoodListing => f.food_type) db.food_listings).map (q7Row db)

/-- Query 7: `food_listings` grouped by food type, percentage columns
against the whole-table totals. -/
def query7Rows (db : DB) : List Q7Row :=
  sortByLe q7le (q7rowsUnsorted db)

/-- `COUNT(CASE WHEN c.status = st THEN 1 END)` over join rows whose claim
component is extracted by `getc`. -/
def countStatus {α : Type} (getc : α → Option Claim) (st : String)
    (grp : List α) : Nat :=
  (grp.filter (fun x => match getc x with
    | some c => decide (c.status = st)
    | none => false)).length

/-- Result row of query 8 (claims per food item). -/
structure Q8Row where
  food_id : Int
  food_name : String
  available_quantity : Int
  food_type : String
  meal_type : String
  location : String
  provider_name : Option String
  total_claims : Nat
  completed_claims : Nat
  pending_claims : Nat
  cancelled_claims : Nat
  claim_success_rate : Option ℚ
deriving DecidableEq

/-- The `FROM food_listings LEFT JOIN claims LEFT JOIN providers` source of
query 8. -/
def q8Joined (db : DB) : List ((FoodListing × Option Claim) × Option Provider) :=
  leftJoin
    (leftJoin db.food_listings db.claims
      (fun f c => decide (f.food_id = c.food_id)))
    db.providers
    (fun fc p => decide (fc.1.provider_id = p.provider_id))

/-- The `GROUP BY` key of query 8 (provider name is nullable). -/
structure Q8Key where
  food_id : Int
  food_name : String
  quantity : Int
  food_type : String
  meal_type : String
  location : String
  provider_name : Option String
deriving DecidableEq

/-- Key extraction for query 8's `GROUP BY`. -/
def q8Key (x : (FoodListing × Option Claim) × Option Provider) : Q8Key :=
  { food_id := x.1.1.food_id, food_name := x.1.1.food_name,
    quantity := x.1.1.quantity, food_type := x.1.1.food_type,
    meal_type := x.1.1.meal_type, location := x.1.1.location,
    provider_name := x.2.map (fun p => p.name) }

/-- One output row of query 8 for a grouping key; the success rate uses
`NULLIF(COUNT(c.claim_id), 0)`. -/
def q8Row (joined : List ((FoodListing × Option Claim) × Option Provider))
    (k : Q8Key) : Q8Row :=
  let grp := groupRows q8Key joined k
  let total_claims := (grp.filterMap (fun x => x.1.2)).length
  let completed := countStatus (fun x => x.1.2) "Completed" grp
  { food_id := k.food_id, food_name := k.food_name,
    available_quantity := k.quantity,
    food_type := k.food_type, meal_type := k.meal_type,
    location := k.location, provider_name := k.provider_name,
    total_claims := total_claims,
    completed_claims := completed,
    pending_claims := countStatus (fun x => x.1.2) "Pending" grp,
    cancelled_claims := countStatus (fun x => x.1.2) "Cancelled" grp,
    claim_success_rate :=
      oround2 (divNullif ((completed : ℚ) * 100) (total_claims : ℚ)) }

/-- `ORDER BY total_claims DESC, completed_claims DESC` of query 8. -/
def q8le (x y : Q8Row) : Bool :=
  decide (y.total_claims < x.total_claims) ||
  (decide (y.total_claims = x.total_claims) &&
    decide (y.completed_claims ≤ x.completed_claims))

/-- Query 8 with its `HAVING total_claims > 0` filter. -/
def query8Rows (db : DB) : List Q8Row :=
  let joined := q8Joined db
  let rows := (groupKeys q8Key joined).map (q8Row joined)
  sortByLe q8le (rows.filter (fun r => decide (0 < r.total_claims)))

/-- Result row of query 9 (successful providers). -/
structure Q9Row where
  provider_id : Int
  provider_name : String
  provider_type : String
  city : String
  contact : String
  total_food_items_listed : Nat
  total_claims_received : Nat
  successful_claims : Nat
  pending_claims : Nat
  cancelled_claims : Nat
  success_rate_percentage : Option ℚ
  total_food_distributed : Option Int
deriving DecidableEq

/-- The `FROM providers LEFT JOIN food_listings LEFT JOIN claims` source of
queries 9 and 13. -/
def q9Joined (db : DB) : List ((Provider × Option FoodListing) × Option Claim) :=
  leftJoin
    (leftJoin db.providers db.food_listings
      (fun p f => decide (p.provider_id = f.provider_id)))
    db.claims
    (fun pf c => match pf.2 with
      | some f => decide (f.food_id = c.food_id)
      | none => false)

/-- The `GROUP BY` key of query 9. -/
def q9Key (x : (Provider × Option FoodListing) × Option Claim) :
    Int × String × String × String × String :=
  (x.1.1.provider_id, x.1.1.name, x.1.1.type, x.1.1.city, x.1.1.contact)

/-- One output row of query 9 for a grouping key. -/
def q9Row (joined : List ((Provider × Option FoodListing) × Option Claim))
    (k : Int × String × String × String × String) : Q9Row :=
  let grp := groupRows q9Key joined k
  let total_claims := (grp.filterMap (fun x => x.2)).length
  let successful := countStatus (fun x => x.2) "Completed" grp
  { provider_id := k.1, provider_name := k.2.1, provider_type := k.2.2.1,
    city := k.2.2.2.1, contact := k.2.2.2.2,
    total_food_items_listed :=
      (((grp.filterMap (fun x => x.1.2)).map (fun f => f.food_id)).dedup).length,
    total_claims_received := total_claims,
    successful_claims := successful,
    pending_claims := countStatus (fun x => x.2) "Pending" grp,
    cancelled_claims := countStatus (fun x => x.2) "Cancelled" grp,
    success_rate_percentage :=
      oround2 (divNullif ((successful : ℚ) * 100) (total_claims : ℚ)),
    total_food_distributed := sqlSum (grp.map (fun x => match x.2 with
      | some c =>
        if decide (c.status = "Completed") then x.1.2.map (fun f => f.quantity)
        else some 0
      | none => some 0)) }

/-- `ORDER BY successful_claims DESC, total_food_distributed DESC` of
query 9. -/
def q9le (x y : Q9Row) : Bool :=
  decide (y.successful_claims < x.successful_claims) ||
  (decide (y.successful_claims = x.successful_claims) &&
    (sqlLtOptInt y.total_food_distributed x.total_food_distributed ||
      decide (y.total_food_distributed = x.total_food_distributed)))

/-- Query 9 with its `HAVING total_claims_received > 0` filter and
`LIMIT 15`. -/
def query9Rows (db : DB) : List Q9Row :=
  let joined := q9Joined db
  let rows := (groupKeys q9Key joined).map (q9Row joined)
  (sortByLe q9le (rows.filter (fun r => decide (0 < r.total_claims_received)))).take 15

/-- Result row of query 10 (claim status distribution), after the outer
`SELECT` projects `sort_order` away. -/
structure Q10Row where
  status : String
  claim_count : Nat
  percentage : Option ℚ
  unique_receivers : Nat
  unique_food_items : Nat
  earliest_claim : Option String
  latest_claim : Option String
deriving DecidableEq

/-- One `status_summary` CTE row of query 10, paired with its
`sort_order`. -/
def q10StatusRow (db : DB) (st : String) : Q10Row × Int :=
  let grp := groupRows (fun c : Claim => c.status) db.claims st
  ({ status := st,
     claim_count := grp.length,
     percentage :=
       oround2 (sqlDiv ((grp.length : ℚ) * 100) (db.claims.length : ℚ)),
     unique_receivers := ((grp.map (fun c => c.receiver_id)).dedup).length,
     unique_food_items := ((grp.map (fun c => c.food_id)).dedup).length,
     earliest_claim := sqlMinStr (grp.map (fun c => c.timestamp)),
     latest_claim := sqlMaxStr (grp.map (fun c => c.timestamp)) },
   if st = "Completed" then 1
   else if st = "Pending" then 2
   else if st = "Cancelled" then 3
   else 4)

/-- The `UNION ALL` `TOTAL` row of query 10: an ungrouped aggregate, so it
exists even over an empty claims table, with the literal `100.0`. -/
def q10TotalRow (db : DB) : Q10Row × Int :=
  ({ status := "TOTAL",
     claim_count := db.claims.length,
     percentage := some 100,
     unique_receivers := ((db.claims.map (fun c => c.receiver_id)).dedup).length,
     unique_food_items := ((db.claims.map (fun c => c.food_id)).dedup).length,
     earliest_claim := sqlMinStr (db.claims.map (fun c => c.timestamp)),
     latest_claim := sqlMaxStr (db.claims.map (fun c => c.timestamp)) }, 5)

/-- `ORDER BY sort_order` of query 10. -/
def q10le (x y : Q10Row × Int) : Bool :=
  decide (x.2 ≤ y.2)

/-- Query 10: per-status rows unioned with the `TOTAL` row, ordered by
`sort_order`, projected to the seven output columns. -/
def query10Rows (db : DB) : List Q10Row :=
  let all := (groupKeys (fun c : Claim => c.status) db.claims).map
    (q10StatusRow db) ++ [q10TotalRow db]
  (sortByLe q10le all).map (fun x => x.1)

/-- Result row of query 11 (average food per receiver). -/
structure Q11Row where
  receiver_type : String
  total_receivers : Nat
  total_claims : Nat
  completed_claims : Nat
  total_food_received : Option Int
  avg_food_per_completed_claim : Option ℚ
  avg_food_per_receiver : Option ℚ
  avg_successful_claims_per_receiver : Option ℚ
deriving DecidableEq

/-- One output row of query 11 for a receiver type, over the
`receivers LEFT JOIN claims LEFT JOIN food_listings` source. -/
def q11Row (joined : List ((Receiver × Option Claim) × Option FoodListing))
    (t : String) : Q11Row :=
  let grp := groupRows (fun x => x.1.1.type) joined t
  let total_receivers := ((grp.map (fun x => x.1.1.receiver_id)).dedup).length
  let completed := countStatus (fun x => x.1.2) "Completed" grp
  let received := sqlSum (grp.map (fun x => match x.1.2 with
    | some c =>
      if decide (c.status = "Completed") then x.2.map (fun f => f.quantity)
      else some 0
    | none => some 0))
  { receiver_type := t,
    total_receivers := total_receivers,
    total_claims := (grp.filterMap (fun x => x.1.2)).length,
    completed_claims := completed,
    total_food_received := received,
    avg_food_per_completed_claim := oround2 (sqlAvg (grp.map (fun x =>
      match x.1.2 with
      | some c =>
        if decide (c.status = "Completed") then x.2.map (fun f => f.quantity)
        else none
      | none => none))),
    avg_food_per_receiver := match received with
      | some s => oround2 (divNullif (s : ℚ) (total_receivers : ℚ))
      | none => none,
    avg_successful_claims_per_receiver :=
      oround2 (divNullif (completed : ℚ) (total_receivers : ℚ)) }

/-- `ORDER BY avg_food_per_receiver DESC` of query 11. -/
def q11le (x y : Q11Row) : Bool :=
  sqlLtOptQ y.avg_food_per_receiver x.avg_food_per_receiver ||
  decide (y.avg_food_per_receiver = x.avg_food_per_receiver)

/-- Query 11: receivers joined to their completed claims, grouped by
receiver type. -/
def query11Rows (db : DB) : List Q11Row :=
  let joined := q4Joined db
  sortByLe q11le ((groupKeys (fun x => x.1.1.type) joined).map (q11Row joined))

/-- Result row of query 12 (meal type popularity). -/
structure Q12Row where
  meal_type : String
  total_food_items : Nat
  total_quantity_available : Option Int
  total_claims : Nat
  completed_claims : Nat
  pending_claims : Nat
  cancelled_claims : Nat
  total_quantity_claimed : Option Int
  claims_per_food_item_ratio : Option ℚ
  success_rate_percentage : Option ℚ
  utilization_rate_percentage : Option ℚ
deriving DecidableEq

/-- The `FROM food_listings LEFT JOIN claims` source of query 12. -/
def q12Joined (db : DB) : List (FoodListing × Option Claim) :=
  leftJoin db.food_listings db.claims (fun f c => decide (f.food_id = c.food_id))

/-- One output row of query 12 for a meal type.  `SUM(f.quantity)` runs
over the join rows, so a listing is counted once per matching claim, as in
the source SQL. -/
def q12Row (joined : List (FoodListing × Option Claim)) (t : String) : Q12Row :=
  let grp := groupRows (fun x : FoodListing × Option Claim => x.1.meal_type)
    joined t
  let total_food_items := ((grp.map (fun x => x.1.food_id)).dedup).length
  let total_claims := (grp.filterMap (fun x => x.2)).length
  let completed := countStatus (fun x => x.2) "Completed" grp
  let avail := sqlSum (grp.map (fun x => some x.1.quantity))
  let claimed := sqlSum (grp.map (fun x => match x.2 with
    | some c =>
      if decide (c.status = "Completed") then some x.1.quantity else some 0
    | none => some 0))
  { meal_type := t,
    total_food_items := total_food_items,
    total_quantity_available := avail,
    total_claims := total_claims,
    completed_claims := completed,
    pending_claims := countStatus (fun x => x.2) "Pending" grp,
    cancelled_claims := countStatus (fun x => x.2) "Cancelled" grp,
    total_quantity_claimed := claimed,
    claims_per_food_item_ratio :=
      oround2 (divNullif ((total_claims : ℚ) * 100) (total_food_items : ℚ)),
    success_rate_percentage :=
      oround2 (divNullif ((completed : ℚ) * 100) (total_claims : ℚ)),
    utilization_rate_percentage := match claimed, avail with
      | some a, some b => oround2 (divNullif ((a : ℚ) * 100) (b : ℚ))
      | _, _ => none }

/-- `ORDER BY total_quantity_claimed DESC, total_claims DESC` of query 12. -/
def q12le (x y : Q12Row) : Bool :=
  sqlLtOptInt y.total_quantity_claimed x.total_quantity_claimed ||
  (decide (y.total_quantity_claimed = x.total_quantity_claimed) &&
    decide (y.total_claims ≤ x.total_claims))

/-- Query 12: `food_listings LEFT JOIN claims`, grouped by meal type. -/
def query12Rows (db : DB) : List Q12Row :=
  let joined := q12Joined db
  sortByLe q12le
    ((groupKeys (fun x : FoodListing × Option Claim => x.1.meal_type) joined).map
      (q12Row joined))

/-- Result row of query 13 (provider food donations). -/
structure Q13Row where
  provider_id : Int
  provider_name : String
  provider_type : String
  city : String
  total_food_items : Nat
  total_quantity_donated : Option Int
  avg_quantity_per_item : Option ℚ
  food_type_variety : Nat
  meal_type_variety : Nat
  total_claims_received : Nat
  successful_distributions : Nat
  quantity_successfully_distributed : Option Int
  distribution_efficiency_percentage : Option ℚ
deriving DecidableEq

/-- The `GROUP BY` key of query 13. -/
def q13Key (x : (Provider × Option FoodListing) × Option Claim) :
    Int × String × String × String :=
  (x.1.1.provider_id, x.1.1.name, x.1.1.type, x.1.1.city)

/-- One output row of query 13 for a grouping key. -/
def q13Row (joined : List ((Provider × Option FoodListing) × Option Claim))
    (k : Int × String × String × String) : Q13Row :=
  let grp := groupRows q13Key joined k
  let qtys := grp.map (fun x => x.1.2.map (fun f => f.quantity))
  let donated := sqlSum qtys
  let distributed := sqlSum (grp.map (fun x => match x.2 with
    | some c =>
      if decide (c.status = "Completed") then x.1.2.map (fun f => f.quantity)
      else some 0
    | none => some 0))
  { provider_id := k.1, provider_name := k.2.1, provider_type := k.2.2.1,
    city := k.2.2.2,
    total_food_items := (grp.filterMap (fun x => x.1.2)).length,
    total_quantity_donated := donated,
    avg_quantity_per_item := oround2 (sqlAvg qtys),
    food_type_variety :=
      (((grp.filterMap (fun x => x.1.2)).map (fun f => f.food_type)).dedup).length,
    meal_type_variety :=
      (((grp.filterMap (fun x => x.1.2)).map (fun f => f.meal_type)).dedup).length,
    total_claims_received := (grp.filterMap (fun x => x.2)).length,
    successful_distributions := countStatus (fun x => x.2) "Completed" grp,
    quantity_successfully_distributed := distributed,
    distribution_efficiency_percentage := match distributed, donated with
      | some a, some b => oround2 (divNullif ((a : ℚ) * 100) (b : ℚ))
      | _, _ => none }

/-- `ORDER BY total_quantity_donated DESC` of query 13. -/
def q13le (x y : Q13Row) : Bool :=
  sqlLtOptInt y.total_quantity_donated x.total_quantity_donated ||
  decide (y.total_quantity_donated = x.total_quantity_donated)

/-- Query 13 with its `HAVING total_food_items > 0` filter. -/
def query13Rows (db : DB) : List Q13Row :=
  let joined := q9Joined db
  let rows := (groupKeys q13Key joined).map (q13Row joined)
  sortByLe q13le (rows.filter (fun r => decide (0 < r.total_food_items)))

/-- Result row of query 14 (geographic food distribution). -/
structure Q14Row where
  city : String
  total_providers : Nat
  total_food_listings : Nat
  total_food_available : Option Int
  total_claims : Nat
  completed_claims : Nat
  food_distributed : Option Int
  unique_receivers_served : Nat
  avg_claims_per_food_item : Option ℚ
  claim_success_rate : Option ℚ
  food_utilization_rate : Option ℚ
deriving DecidableEq

/-- The `FROM food_listings LEFT JOIN providers LEFT JOIN claims` source of
query 14. -/
def q14Joined (db : DB) : List ((FoodListing × Option Provider) × Option Claim) :=
  leftJoin
    (leftJoin db.food_listings db.providers
      (fun f p => decide (f.provider_id = p.provider_id)))
    db.claims
    (fun fp c => decide (fp.1.food_id = c.food_id))

/-- One output row of query 14 for a location. -/
def q14Row (joined : List ((FoodListing × Option Provider) × Option Claim))
    (c : String) : Q14Row :=
  let grp := groupRows (fun x => x.1.1.location) joined c
  let total_food_listings := ((grp.map (fun x => x.1.1.food_id)).dedup).length
  let total_claims := (grp.filterMap (fun x => x.2)).length
  let completed := countStatus (fun x => x.2) "Completed" grp
  let avail := sqlSum (grp.map (fun x => some x.1.1.quantity))
  let distributed := sqlSum (grp.map (fun x => match x.2 with
    | some cl =>
      if decide (cl.status = "Completed") then some x.1.1.quantity else some 0
    | none => some 0))
  { city := c,
    total_providers :=
      (((grp.filterMap (fun x => x.1.2)).map (fun p => p.provider_id)).dedup).length,
    total_food_listings := total_food_listings,
    total_food_available := avail,
    total_claims := total_claims,
    completed_claims := completed,
    food_distributed := distributed,
    unique_receivers_served :=
      (((grp.filterMap (fun x => x.2)).map (fun cl => cl.receiver_id)).dedup).length,
    avg_claims_per_food_item :=
      oround2 (divNullif (total_claims : ℚ) (total_food_listings : ℚ)),
    claim_success_rate :=
      oround2 (divNullif ((completed : ℚ) * 100) (total_claims : ℚ)),
    food_utilization_rate := match distributed, avail with
      | some a, some b => oround2 (divNullif ((a : ℚ) * 100) (b : ℚ))
      | _, _ => none }

/-- `ORDER BY food_distributed DESC, total_food_available DESC` of
query 14. -/
def q14le (x y : Q14Row) : Bool :=
  sqlLtOptInt y.food_distributed x.food_distributed ||
  (decide (y.food_distributed = x.food_distributed) &&
    (sqlLtOptInt y.total_food_available x.total_food_available ||
      decide (y.total_food_available = x.total_food_available)))

/-- Query 14: listings joined to providers and claims, grouped by
location. -/
def query14Rows (db : DB) : List Q14Row :=
  let joined := q14Joined db
  sortByLe q14le ((groupKeys (fun x => x.1.1.location) joined).map (q14Row joined))

/-- Result row of query 15 (comprehensive system metrics). -/
structure Q15Row where
  metric_category : String
  metric_name : String
  metric_value : Option Int
  percentage : Option ℚ
deriving DecidableEq

/-- `ORDER BY metric_category, metric_name` of query 15. -/
def q15le (x y : Q15Row) : Bool :=
  if x.metric_category = y.metric_category then
    strLeB x.metric_name y.metric_name
  else strLeB x.metric_category y.metric_category

/-- Query 15: seven `UNION ALL`ed single-row aggregates. -/
def query15Rows (db : DB) : List Q15Row :=
  let totalQty := sqlSum (db.food_listings.map (fun f => some f.quantity))
  let completedClaims := db.claims.filter (fun c => decide (c.status = "Completed"))
  let distributedJoin := (innerJoin db.claims db.food_listings
    (fun c f => decide (c.food_id = f.food_id))).filter
    (fun x => decide (x.1.status = "Completed"))
  let distributedSum := sqlSum (distributedJoin.map (fun x => some x.2.quantity))
  sortByLe q15le
    [{ metric_category := "System Overview",
       metric_name := "Total Active Providers",
       metric_value := some ((((innerJoin db.providers db.food_listings
         (fun p f => decide (p.provider_id = f.provider_id))).map
           (fun x => x.1.provider_id)).dedup).length : Nat),
       percentage := none },
     { metric_category := "System Overview",
       metric_name := "Total Active Receivers",
       metric_value := some ((((innerJoin db.receivers db.claims
         (fun r c => decide (r.receiver_id = c.receiver_id))).map
           (fun x => x.1.receiver_id)).dedup).length : Nat),
       percentage := none },
     { metric_category := "Food Availability",
       metric_name := "Total Food Items Listed",
       metric_value := some (db.food_listings.length : Nat),
       percentage := none },
     { metric_category := "Food Availability",
       metric_name := "Total Quantity Available",
       metric_value := totalQty,
       percentage := none },
     { metric_category := "Claims Performance",
       metric_name := "Total Claims Made",
       metric_value := some (db.claims.length : Nat),
       percentage := none },
     { metric_category := "Claims Performance",
       metric_name := "Successful Claims",
       metric_value := some (completedClaims.length : Nat),
       percentage := oround2 (sqlDiv ((completedClaims.length : ℚ) * 100)
         (db.claims.length : ℚ)) },
     { metric_category := "Distribution Efficiency",
       metric_name := "Food Successfully Distributed",
       metric_value := distributedSum,
       percentage := oround2 (pctOfTotal distributedSum totalQty) }]

/-! ## The query methods

Each `FoodWastageAnalyzer.query_N_...` method submits its `SELECT`
statement through `DatabaseManager.fetch_dataframe`; query 5 additionally
depends on `date('now')`, injected here as the `now` argument. -/

/-- `FoodWastageAnalyzer.query_1_providers_receivers_by_city`. -/
def query_1_providers_receivers_by_city (connOk : Bool) (db : DB) :
    Option (List Q1Row) × DB :=
  fetch_dataframe connOk query1Rows db

/-- `FoodWastageAnalyzer.query_2_top_provider_types`. -/
def query_2_top_provider_types (connOk : Bool) (db : DB) :
    Option (List Q2Row) × DB :=
  fetch_dataframe connOk query2Rows db

/-- `FoodWastageAnalyzer.query_3_provider_contacts_by_city`. -/
def query_3_provider_contacts_by_city (connOk : Bool) (db : DB) :
    Option (List Q3Row) × DB :=
  fetch_dataframe connOk query3Rows db

/-- `FoodWastageAnalyzer.query_4_top_food_claimers`. -/
def query_4_top_food_claimers (connOk : Bool) (db : DB) :
    Option (List Q4Row) × DB :=
  fetch_dataframe connOk query4Rows db

/-- `FoodWastageAnalyzer.query_5_total_food_available`. -/
def query_5_total_food_available (connOk : Bool) (now : String) (db : DB) :
    Option (List Q5Row) × DB :=
  fetch_dataframe connOk (query5Rows now) db

/-- `FoodWastageAnalyzer.query_6_food_listings_by_city`. -/
def query_6_food_listings_by_city (connOk : Bool) (db : DB) :
    Option (List Q6Row) × DB :=
  fetch_dataframe connOk query6Rows db

/-- `FoodWastageAnalyzer.query_7_common_food_types`. -/
def query_7_common_food_types (connOk : Bool) (db : DB) :
    Option (List Q7Row) × DB :=
  fetch_dataframe connOk query7Rows db

/-- `FoodWastageAnalyzer.query_8_claims_per_food_item`. -/
def query_8_claims_per_food_item (connOk : Bool) (db : DB) :
    Option (List Q8Row) × DB :=
  fetch_dataframe connOk query8Rows db

/-- `FoodWastageAnalyzer.query_9_successful_providers`. -/
def query_9_successful_providers (connOk : Bool) (db : DB) :
    Option (List Q9Row) × DB :=
  fetch_dataframe connOk query9Rows db

/-- `FoodWastageAnalyzer.query_10_claim_status_distribution`. -/
def query_10_claim_status_distribution (connOk : Bool) (db : DB) :
    Option (List Q10Row) × DB :=
  fetch_dataframe connOk query10Rows db

/-- `FoodWastageAnalyzer.query_11_avg_food_per_receiver`. -/
def query_11_avg_food_per_receiver (connOk : Bool) (db : DB) :
    Option (List Q11Row) × DB :=
  fetch_dataframe connOk query11Rows db

/-- `FoodWastageAnalyzer.query_12_meal_type_popularity`. -/
def query_12_meal_type_popularity (connOk : Bool) (db : DB) :
    Option (List Q12Row) × DB :=
  fetch_dataframe connOk query12Rows db

/-- `FoodWastageAnalyzer.query_13_provider_food_donations`. -/
def query_13_provider_food_donations (connOk : Bool) (db : DB) :
    Option (List Q13Row) × DB :=
  fetch_dataframe connOk query13Rows db

/-- `FoodWastageAnalyzer.query_14_geographic_food_distribution`. -/
def query_14_geographic_food_distribution (connOk : Bool) (db : DB) :
    Option (List Q14Row) × DB :=
  fetch_dataframe connOk query14Rows db

/-- `FoodWastageAnalyzer.query_15_comprehensive_system_metrics`. -/
def query_15_comprehensive_system_metrics (connOk : Bool) (db : DB) :
    Option (List Q15Row) × DB :=
  fetch_dataframe connOk query15Rows db

/-! ## run_all_queries (sql_queries.py)

The method iterates the fifteen `(name, func)` pairs, stores a result in
the `results` dict only when `result is not None and not result.empty`,
and reports `len(results)` as the `N/15` success count.  The dataframes
are heterogeneous, so the embedding tracks, per query, the optional row
count of its result; the returned value models the key set of `results`
(whose size is the reported success count). -/

/-- The fifteen `(name, row count of the optional result)` pairs examined
by `run_all_queries`, in source order. -/
def queryEntries (connOk : Bool) (now : String) (db : DB) :
    List (String × Option Nat) :=
  [("Query 1: Providers & Receivers by City",
     ((query_1_providers_receivers_by_city connOk db).1).map List.length),
   ("Query 2: Top Provider Types",
     ((query_2_top_provider_types connOk db).1).map List.length),
   ("Query 3: Provider Contacts by City",
     ((query_3_provider_contacts_by_city connOk db).1).map List.length),
   ("Query 4: Top Food Claimers",
     ((query_4_top_food_claimers connOk db).1).map List.length),
   ("Query 5: Total Food Available",
     ((query_5_total_food_available connOk now db).1).map List.length),
   ("Query 6: Food Listings by City",
     ((query_6_food_listings_by_city connOk db).1).map List.length),
   ("Query 7: Common Food Types",
     ((query_7_common_food_types connOk db).1).map List.length),
   ("Query 8: Claims per Food Item",
     ((query_8_claims_per_food_item connOk db).1).map List.length),
   ("Query 9: Successful Providers",
     ((query_9_successful_providers connOk db).1).map List.length),
   ("Query 10: Claim Status Distribution",
     ((query_10_claim_status_distribution connOk db).1).map List.length),
   ("Query 11: Average Food per Receiver",
     ((query_11_avg_food_per_receiver connOk db).1).map List.length),
   ("Query 12: Meal Type Popularity",
     ((query_12_meal_type_popularity connOk db).1).map List.length),
   ("Query 13: Provider Food Donations",
     ((query_13_provider_food_donations connOk db).1).map List.length),
   ("Query 14: Geographic Distribution",
     ((query_14_geographic_food_distribution connOk db).1).map List.length),
   ("Query 15: System Metrics",
     ((query_15_comprehensive_system_metrics connOk db).1).map List.length)]

/-- The `result is not None and not result.empty` acceptance test of
`run_all_queries`. -/
def keepResult : Option Nat → Bool
  | some n => decide (0 < n)
  | none => false

/-- `FoodWastageAnalyzer.run_all_queries`: the key set of the `results`
dict; `len(results)` is the reported `N/15` success count. -/
def run_all_queries (connOk : Bool) (now : String) (db : DB) : List String :=
  ((queryEntries connOk now db).filter (fun e => keepResult e.2)).map
    (fun e => e.1)

/-! ## Concrete data used by counterexamples and witnesses -/

/-- A well-formed providers record for the missing-claims-file scenario. -/
def c1ProviderRow : ProviderRow :=
  { provider_id := 1, name := "Fresh Farm", type := "Restaurant",
    address := "12 Main St", city := "Metro", contact := some "555-0100" }

/-- A processed-data directory in which only `claims_cleaned.csv` is
absent. -/
def c1Env : CsvEnv :=
  { providersFile := some [c1ProviderRow], receiversFile := some [],
    foodListingsFile := some [], claimsFile := none }

/-- The stale provider row sitting in the store before the run. -/
def c1StaleProvider : Provider :=
  { provider_id := 2, name := "Stale Mart", type := "Grocery",
    address := "9 Side St", city := "Metro", contact := "" }

/-- A store whose stale providers table differs from the new source. -/
def c1Db : DB :=
  { providers := [c1StaleProvider],
    receivers := [], food_listings := [], claims := [] }

/-- C1: the claim states that when a required source file is absent, only
that table's load is aborted while the other tables' loads still proceed.
This is false for `load_all_data`: with only `claims_cleaned.csv` absent it
reports the named missing-file list and returns failure before any load
runs, leaving even the providers table stale — although the providers load,
had it proceeded, would have replaced the table with the new record. -/
theorem c1_counterexample_missing_file_aborts_everything :
    missing_files c1Env = ["claims_cleaned.csv"] ∧
    load_all_data true c1Env c1Db = (false, c1Db) ∧
    (load_providers true c1Env c1Db).2.providers = [toProvider c1ProviderRow] ∧
    c1Db.providers ≠ [toProvider c1ProviderRow] := by
  refine ⟨?_, ?_, ?_, ?_⟩ <;> decide

/-- C1 (amended): in an ingestion run over a source-file set with any
required file absent, `load_all_data` reports the missing files as a named
list and aborts the whole run before any table's load is attempted: it
returns failure with every table left unchanged. -/
theorem c1_missing_file_aborts_whole_run (connOk : Bool) (env : CsvEnv)
    (db : DB) (h : missing_files env ≠ []) :
    load_all_data connOk env db = (false, db) := by
  unfold load_all_data
  rw [if_pos h]

/-- C1 witness: the amended theorem applied to the concrete one-missing-file
scenario. -/
theorem c1_missing_file_aborts_whole_run_witness :
    missing_files c1Env ≠ [] ∧ load_all_data true c1Env c1Db = (false, c1Db) :=
  ⟨by decide, c1_missing_file_aborts_whole_run true c1Env c1Db (by decide)⟩

/-- C3: for every source-file environment and starting store, running a
table's load twice in succession returns the same status and the same
store as running it once, for each of the four loaders: each load deletes
the table and reinserts the parsed source, so nothing accumulates. -/
theorem c3_reload_is_idempotent (connOk : Bool) (env : CsvEnv) (db : DB) :
    load_providers connOk env (load_providers connOk env db).2 =
      load_providers connOk env db ∧
    load_receivers connOk env (load_receivers connOk env db).2 =
      load_receivers connOk env db ∧
    load_food_listings connOk env (load_food_listings connOk env db).2 =
      load_food_listings connOk env db ∧
    load_claims connOk env (load_claims connOk env db).2 =
      load_claims connOk env db := by
  refine ⟨?_, ?_, ?_, ?_⟩
  · cases hf : env.providersFile <;> cases connOk <;>
      simp [load_providers, hf, execute_query, execute_many, get_connection]
  · cases hf : env.receiversFile <;> cases connOk <;>
      simp [load_receivers, hf, execute_query, execute_many, get_connection]
  · cases hf : env.foodListingsFile <;> cases connOk <;>
      simp [load_food_listings, hf, execute_query, execute_many, get_connection]
  · cases hf : env.claimsFile <;> cases connOk <;>
      simp [load_claims, hf, execute_query, execute_many, get_connection]

/-- C6: every one of the fifteen catalog queries is a read: whatever the
store state and connection health, running the query method leaves the
store (all four tables) exactly as it was. -/
theorem c6_catalog_queries_leave_store_unchanged (connOk : Bool) (now : String)
    (db : DB) :
    (query_1_providers_receivers_by_city connOk db).2 = db ∧
    (query_2_top_provider_types connOk db).2 = db ∧
    (query_3_provider_contacts_by_city connOk db).2 = db ∧
    (query_4_top_food_claimers connOk db).2 = db ∧
    (query_5_total_food_available connOk now db).2 = db ∧
    (query_6_food_listings_by_city connOk db).2 = db ∧
    (query_7_common_food_types connOk db).2 = db ∧
    (query_8_claims_per_food_item connOk db).2 = db ∧
    (query_9_successful_providers connOk db).2 = db ∧
    (query_10_claim_status_distribution connOk db).2 = db ∧
    (query_11_avg_food_per_receiver connOk db).2 = db ∧
    (query_12_meal_type_popularity connOk db).2 = db ∧
    (query_13_provider_food_donations connOk db).2 = db ∧
    (query_14_geographic_food_distribution connOk db).2 = db ∧
    (query_15_comprehensive_system_metrics connOk db).2 = db := by
  cases connOk <;>
    exact ⟨rfl, rfl, rfl, rfl, rfl, rfl, rfl, rfl, rfl, rfl, rfl, rfl, rfl,
      rfl, rfl⟩

/-- C7: when the connection cannot be established, each store operation
returns its null/absent result with the store untouched: `None` for a
single statement, `False` for a batch, `None` for a dataframe fetch — no
exception reaches the caller (the model is total). -/
theorem c7_connection_failure_yields_null_results {ρ α : Type}
    (eff : DB → DB) (rows : DB → List ρ) (rowOk : α → Bool) (pk : α → Int)
    (table rs : List α) (eval : DB → ρ) (db : DB) :
    execute_query false eff rows db = (none, db) ∧
    execute_many false rowOk pk table rs = (false, table) ∧
    fetch_dataframe false eval db = (none, db) :=
  ⟨rfl, rfl, rfl⟩

/-- A food-listings record violating the `CHECK (quantity > 0)` schema
constraint. -/
def c9BadListing : FoodListing :=
  { food_id := 10, food_name := "Rice", quantity := 0,
    expiry_date := "2026-01-01", provider_id := 1,
    provider_type := "Restaurant", location := "Metro",
    food_type := "Vegan", meal_type := "Lunch" }

/-- A processed-data directory whose food-listings source parses but whose
batched insert must fail on the CHECK constraint. -/
def c9Env : CsvEnv :=
  { providersFile := none, receiversFile := none,
    foodListingsFile := some [c9BadListing], claimsFile := none }

/-- The valid food listing sitting in the store before the failed reload. -/
def c9PriorListing : FoodListing :=
  { food_id := 11, food_name := "Dal", quantity := 3,
    expiry_date := "2026-01-01", provider_id := 1,
    provider_type := "Restaurant", location := "Metro",
    food_type := "Vegan", meal_type := "Lunch" }

/-- A store with a pre-existing (valid) food listing that the failed reload
does not restore. -/
def c9Db : DB :=
  { providers := [], receivers := [],
    food_listings := [c9PriorListing],
    claims := [] }

/-- C9: if the food-listings source parses but the batched insert then
fails (for instance on a CHECK violation), the load returns failure and the
table is left with zero rows: the preceding `DELETE` was committed on its
own connection, so the prior contents are not restored — the per-table load
is not atomic. -/
theorem c9_failed_insert_leaves_table_empty (env : CsvEnv) (db : DB)
    (rows : List FoodListing) (hfile : env.foodListingsFile = some rows)
    (hbad : insert_allowed foodListingOk (fun f => f.food_id) [] rows = false) :
    load_food_listings true env db = (false, { db with food_listings := [] }) := by
  unfold load_food_listings
  rw [hfile]
  simp [execute_query, execute_many, get_connection, hbad]

/-- C9 witness: the CHECK-violating record, inserted over a previously
nonempty table, empties the table and fails the load. -/
theorem c9_failed_insert_leaves_table_empty_witness :
    c9Env.foodListingsFile = some [c9BadListing] ∧
    insert_allowed foodListingOk (fun f => f.food_id) [] [c9BadListing] = false ∧
    c9Db.food_listings ≠ [] ∧
    load_food_listings true c9Env c9Db = (false, { c9Db with food_listings := [] }) :=
  ⟨rfl, by decide, by decide,
    c9_failed_insert_leaves_table_empty c9Env c9Db [c9BadListing] rfl (by decide)⟩

/-- The acceptance test of `run_all_queries` succeeds exactly on a present,
nonempty result. -/
theorem keepResult_iff (x : Option Nat) :
    keepResult x = true ↔ ∃ n, x = some n ∧ 0 < n := by
  cases x <;> simp [keepResult]

/-- C10: `run_all_queries` counts a catalog query as successful — placing
it in the results and in the `N/15` count — exactly when its result exists
and has at least one row; a query returning an empty table is excluded just
like a failed one (`keepResult (some 0) = keepResult none`). -/
theorem c10_bulk_runner_requires_nonempty_result (connOk : Bool) (now : String)
    (db : DB) (name : String) :
    (name ∈ run_all_queries connOk now db ↔
      ∃ e ∈ queryEntries connOk now db, e.1 = name ∧ ∃ n, e.2 = some n ∧ 0 < n) ∧
    keepResult (some 0) = keepResult none := by
  refine ⟨?_, rfl⟩
  simp only [run_all_queries, List.mem_map, List.mem_filter, keepResult_iff]
  constructor
  · rintro ⟨e, ⟨he, hk⟩, hn⟩
    exact ⟨e, he, hn, hk⟩
  · rintro ⟨e, he, hn, hk⟩
    exact ⟨e, ⟨he, hk⟩, hn⟩

/-! ## Structural lemmas about the embedded SQL operators -/

/-- Inserting into a sorted prefix only permutes. -/
theorem insertSorted_perm {α : Type} (le : α → α → Bool) (x : α) (l : List α) :
    (insertSorted le x l).Perm (x :: l) := by
  induction l with
  | nil => exact List.Perm.refl _
  | cons y ys ih =>
    unfold insertSorted
    by_cases h : le x y = true
    · rw [if_pos h]
    · rw [if_neg h]
      exact (ih.cons y).trans (List.Perm.swap x y ys)

/-- `ORDER BY` only permutes the result rows. -/
theorem sortByLe_perm {α : Type} (le : α → α → Bool) (l : List α) :
    (sortByLe le l).Perm l := by
  induction l with
  | nil => exact List.Perm.refl _
  | cons x xs ih =>
    exact (insertSorted_perm le x (sortByLe le xs)).trans (ih.cons x)

/-- Filtering the `NULL`s out of an all-non-`NULL` column is the column. -/
theorem filterMap_id_map_some {α : Type} (l : List α) (g : α → Int) :
    (l.map (fun a => some (g a))).filterMap id = l.map g := by
  induction l with
  | nil => rfl
  | cons x xs ih => simp [List.filterMap_cons, ih]

/-- `SUM` over a non-nullable column of a nonempty group adds it up. -/
theorem sqlSum_map_some {α : Type} (l : List α) (g : α → Int) (h : l ≠ []) :
    sqlSum (l.map (fun a => some (g a))) = some ((l.map g).sum) := by
  cases l with
  | nil => exact absurd rfl h
  | cons x xs =>
    unfold sqlSum
    rw [filterMap_id_map_some]
    rfl

/-- C2: across the five claim-outcome queries — top food claimers, claims
per food item, successful providers, meal-type popularity and geographic
distribution — a grouping key with zero claims never carries a numeric
success rate: queries 12 and 14 emit its row with a `NULL` success-rate
column (the `NULLIF` guard), while queries 4, 8 and 9 exclude such rows
altogether through `HAVING total_claims > 0`; division is modelled
SQLite-style (`NULL`, never an error) for every store state. -/
theorem c2_zero_claim_groups_have_null_success_rate (db : DB) :
    (∀ r ∈ query4Rows db, r.total_claims = 0 →
      r.success_rate_percentage = none) ∧
    (∀ r ∈ query8Rows db, r.total_claims = 0 →
      r.claim_success_rate = none) ∧
    (∀ r ∈ query9Rows db, r.total_claims_received = 0 →
      r.success_rate_percentage = none) ∧
    (∀ r ∈ query12Rows db, r.total_claims = 0 →
      r.success_rate_percentage = none) ∧
    (∀ r ∈ query14Rows db, r.total_claims = 0 →
      r.claim_success_rate = none) := by
  refine ⟨?_, ?_, ?_, ?_, ?_⟩
  · intro r hr h0
    simp only [query4Rows] at hr
    have h1 := List.take_subset _ _ hr
    have h2 := (sortByLe_perm _ _).mem_iff.mp h1
    have h3 := (List.mem_filter.mp h2).2
    simp only [decide_eq_true_eq] at h3
    omega
  · intro r hr h0
    simp only [query8Rows] at hr
    have h2 := (sortByLe_perm _ _).mem_iff.mp hr
    have h3 := (List.mem_filter.mp h2).2
    simp only [decide_eq_true_eq] at h3
    omega
  · intro r hr h0
    simp only [query9Rows] at hr
    have h1 := List.take_subset _ _ hr
    have h2 := (sortByLe_perm _ _).mem_iff.mp h1
    have h3 := (List.mem_filter.mp h2).2
    simp only [decide_eq_true_eq] at h3
    omega
  · intro r hr h0
    simp only [query12Rows] at hr
    have h2 := (sortByLe_perm _ _).mem_iff.mp hr
    obtain ⟨t, ht, rfl⟩ := List.mem_map.mp h2
    simp only [q12Row] at h0 ⊢
    rw [h0]
    simp [divNullif, nullif0, oround2]
  · intro r hr h0
    simp only [query14Rows] at hr
    have h2 := (sortByLe_perm _ _).mem_iff.mp hr
    obtain ⟨c, hc, rfl⟩ := List.mem_map.mp h2
    simp only [q14Row] at h0 ⊢
    rw [h0]
    simp [divNullif, nullif0, oround2]

/-- A listing whose meal-type group receives no claims at all. -/
def c2Listing : FoodListing :=
  { food_id := 1, food_name := "Paneer", quantity := 4,
    expiry_date := "2026-02-01", provider_id := 1,
    provider_type := "Restaurant", location := "Metro",
    food_type := "Vegetarian", meal_type := "Lunch" }

/-- A store with one listing and an empty claims table. -/
def c2Db : DB :=
  { providers := [], receivers := [], food_listings := [c2Listing],
    claims := [] }

/-- C2 witness: in the meal-type popularity report over a store with one
Lunch listing and no claims, the Lunch row has zero claims and a `NULL`
success rate. -/
theorem c2_zero_claim_groups_witness :
    q12Row (q12Joined c2Db) "Lunch" ∈ query12Rows c2Db ∧
    (q12Row (q12Joined c2Db) "Lunch").total_claims = 0 ∧
    (q12Row (q12Joined c2Db) "Lunch").success_rate_percentage = none := by
  have hmem : q12Row (q12Joined c2Db) "Lunch" ∈ query12Rows c2Db := by
    simp [query12Rows, q12Joined, c2Db, c2Listing, leftJoin, groupKeys,
      sortByLe, insertSorted]
  exact ⟨hmem, rfl,
    (c2_zero_claim_groups_have_null_success_rate c2Db).2.2.2.1 _ hmem rfl⟩

/-- The single Vegan listing of quantity 5 of the common-food-types
scenario. -/
def c4Listing : FoodListing :=
  { food_id := 10, food_name := "Salad", quantity := 5,
    expiry_date := "2026-03-01", provider_id := 1,
    provider_type := "Restaurant", location := "Metro",
    food_type := "Vegan", meal_type := "Lunch" }

/-- A store holding exactly that one listing. -/
def c4Db : DB :=
  { providers := [], receivers := [], food_listings := [c4Listing],
    claims := [] }

/-- The expected single output row of query 7 on `c4Db`. -/
def c4ExpectedRow : Q7Row :=
  { food_type := "Vegan", number_of_listings := 1, total_quantity := some 5,
    avg_quantity_per_listing := some 5, providers_offering := 1,
    cities_available := 1, percentage_of_listings := some 100,
    percentage_of_total_quantity := some 100 }

/-- C4: over a store with exactly one `Vegan` listing of quantity 5, the
common-food-types query returns exactly one row, with
`food_type = "Vegan"`, `number_of_listings = 1`, `total_quantity = 5`,
`percentage_of_listings = 100.0` and
`percentage_of_total_quantity = 100.0`. -/
theorem c4_common_food_types_single_vegan_listing :
    query7Rows c4Db = [c4ExpectedRow] ∧
    (query_7_common_food_types true c4Db).1 = some [c4ExpectedRow] := by
  have h : query7Rows c4Db = [c4ExpectedRow] := by
    simp [query7Rows, q7rowsUnsorted, q7Row, groupKeys, groupRows, sortByLe,
      insertSorted, sqlSum, sqlAvg, sqlDiv, pctOfTotal, oround2, round2,
      c4Db, c4Listing, c4ExpectedRow]
    norm_num [round_eq]
  exact ⟨h, by
    simp [query_7_common_food_types, fetch_dataframe, get_connection, h]⟩

/-- First completed claim of the status-distribution scenario. -/
def c5Claim1 : Claim :=
  { claim_id := 1, food_id := 1, receiver_id := 1, status := "Completed",
    timestamp := "2025-01-01" }

/-- Second completed claim of the status-distribution scenario. -/
def c5Claim2 : Claim :=
  { claim_id := 2, food_id := 1, receiver_id := 2, status := "Completed",
    timestamp := "2025-01-02" }

/-- The pending claim of the status-distribution scenario. -/
def c5Claim3 : Claim :=
  { claim_id := 3, food_id := 2, receiver_id := 1, status := "Pending",
    timestamp := "2025-01-03" }

/-- A store whose claims table holds exactly Completed, Completed,
Pending. -/
def c5Db : DB :=
  { providers := [], receivers := [], food_listings := [],
    claims := [c5Claim1, c5Claim2, c5Claim3] }

/-- C5: over claims `[Completed, Completed, Pending]`, the claim-status
distribution returns, in this order, `(Completed, 2, 66.67)`,
`(Pending, 1, 33.33)` and the `TOTAL` row `(3, 100.0)`. -/
theorem c5_claim_status_distribution_scenario :
    (query10Rows c5Db).map (fun r => (r.status, r.claim_count, r.percentage)) =
      [("Completed", 2, some ((6667 : ℚ) / 100)),
       ("Pending", 1, some ((3333 : ℚ) / 100)),
       ("TOTAL", 3, some (100 : ℚ))] := by
  simp [query10Rows, q10StatusRow, q10TotalRow, q10le, groupKeys, groupRows,
    sortByLe, insertSorted, sqlDiv, oround2, round2, sqlMinStr, sqlMaxStr,
    c5Db, c5Claim1, c5Claim2, c5Claim3]
  norm_num [round_eq]

/-! ## Summation lemmas for the percentage-total property -/

/-- Pointwise sums split. -/
theorem sum_map_add_q {κ R : Type} [CommRing R] (l : List κ) (f g : κ → R) :
    (l.map (fun k => f k + g k)).sum = (l.map f).sum + (l.map g).sum := by
  induction l with
  | nil => simp
  | cons x xs ih => simp [ih]; ring

/-- A constant factor moves out of a mapped sum. -/
theorem sum_map_mul_right_q {κ R : Type} [CommRing R] (l : List κ) (f : κ → R) (c : R) :
    (l.map (fun k => f k * c)).sum = (l.map f).sum * c := by
  induction l with
  | nil => simp
  | cons x xs ih => simp [ih]; ring

/-- A mapped sum of zeros vanishes. -/
theorem sum_map_zero_q {κ R : Type} [CommRing R] (l : List κ) :
    (l.map (fun _ => (0 : R))).sum = 0 := by
  induction l with
  | nil => rfl
  | cons x xs ih => simp [ih]

/-- Summing an indicator over keys not containing the tag gives zero. -/
theorem sum_ite_zero_of_not_mem {κ R : Type} [CommRing R] [DecidableEq κ]
    (keys : List κ) (b : κ) (c : R) (hb : b ∉ keys) :
    (keys.map (fun k => if b = k then c else 0)).sum = 0 := by
  induction keys with
  | nil => rfl
  | cons k ks ih =>
    have hbk : b ≠ k := fun h => hb (h ▸ List.mem_cons_self k ks)
    have hbks : b ∉ ks := fun h => hb (List.mem_cons_of_mem _ h)
    simp [hbk, ih hbks]

/-- Summing an indicator over duplicate-free keys containing the tag picks
the tagged value exactly once. -/
theorem sum_ite_eq_of_nodup {κ R : Type} [CommRing R] [DecidableEq κ] :
    ∀ (keys : List κ), keys.Nodup → ∀ b ∈ keys, ∀ (c : R),
    (keys.map (fun k => if b = k then c else 0)).sum = c := by
  intro keys
  induction keys with
  | nil => intro _ b hb; cases hb
  | cons k ks ih =>
    intro hnd b hb c
    rcases List.mem_cons.mp hb with h | h
    · subst h
      have hnm : b ∉ ks := (List.nodup_cons.mp hnd).1
      simp [sum_ite_zero_of_not_mem ks b c hnm]
    · have hbk : b ≠ k := by
        rintro rfl
        exact (List.nodup_cons.mp hnd).1 h
      simp [hbk, ih (List.nodup_cons.mp hnd).2 b h c]

/-- `GROUP BY` partitions: summing a column group by group over a
duplicate-free covering key list equals summing it over the whole table. -/
theorem sum_groups_eq_sum {α κ R : Type} [CommRing R] [DecidableEq κ]
    (key : α → κ) (g : α → R) (keys : List κ) (hnd : keys.Nodup) :
    ∀ (l : List α), (∀ a ∈ l, key a ∈ keys) →
    (keys.map (fun k => ((groupRows key l k).map g).sum)).sum = (l.map g).sum := by
  intro l
  induction l with
  | nil =>
    intro _
    simp [groupRows, sum_map_zero_q]
  | cons a l ih =>
    intro hcov
    have hka : key a ∈ keys := hcov a (List.mem_cons_self a l)
    have hcov2 : ∀ x ∈ l, key x ∈ keys :=
      fun x hx => hcov x (List.mem_cons_of_mem a hx)
    have hsplit : ∀ k, ((groupRows key (a :: l) k).map g).sum =
        (if key a = k then g a else 0) + ((groupRows key l k).map g).sum := by
      intro k
      unfold groupRows
      rw [List.filter_cons]
      by_cases h : key a = k
      · simp [h]
      · simp [h]
    calc (keys.map (fun k => ((groupRows key (a :: l) k).map g).sum)).sum
        = (keys.map (fun k => (if key a = k then g a else 0) +
            ((groupRows key l k).map g).sum)).sum := by
          exact congrArg _ (List.map_congr_left (fun k _ => hsplit k))
      _ = (keys.map (fun k => if key a = k then g a else 0)).sum +
            (keys.map (fun k => ((groupRows key l k).map g).sum)).sum :=
          sum_map_add_q keys _ _
      _ = g a + (l.map g).sum := by
          rw [sum_ite_eq_of_nodup keys hnd (key a) hka (g a), ih hcov2]
      _ = ((a :: l).map g).sum := by simp

/-- Casting an integer column sum into `ℚ` commutes with summing. -/
theorem intCast_sum_map {α : Type} (l : List α) (g : α → ℤ) :
    (((l.map g).sum : ℤ) : ℚ) = (l.map (fun a => ((g a : ℤ) : ℚ))).sum := by
  induction l with
  | nil => simp
  | cons x xs ih => simp [ih]

/-- Counting is summing ones. -/
theorem sum_map_one_eq_length {α : Type} (l : List α) :
    (l.map (fun _ => (1 : ℚ))).sum = (l.length : ℚ) := by
  induction l with
  | nil => simp
  | cons x xs ih =>
    simp [ih]
    ring

/-- `ROUND(x, 2)` moves a value by at most half of a hundredth. -/
theorem round2_close (x : ℚ) : |round2 x - x| ≤ 1 / 200 := by
  have h := abs_sub_round (x * 100)
  rw [abs_sub_comm] at h
  unfold round2
  have key : ((round (x * 100) : ℤ) : ℚ) / 100 - x =
      (((round (x * 100) : ℤ) : ℚ) - x * 100) / 100 := by ring
  rw [key, abs_div]
  have habs : |(100 : ℚ)| = 100 := by norm_num
  rw [habs]
  linarith

/-- Rounding each summand to two decimals moves a sum by at most half a
hundredth per row. -/
theorem sum_round2_close (xs : List ℚ) :
    |(xs.map round2).sum - xs.sum| ≤ (xs.length : ℚ) / 200 := by
  induction xs with
  | nil => simp
  | cons x l ih =>
    have h1 := round2_close x
    have tri : |(round2 x + (l.map round2).sum) - (x + l.sum)| ≤
        |round2 x - x| + |(l.map round2).sum - l.sum| := by
      have hsplit : (round2 x + (l.map round2).sum) - (x + l.sum) =
          (round2 x - x) + ((l.map round2).sum - l.sum) := by ring
      rw [hsplit]
      exact abs_add _ _
    simp only [List.map_cons, List.sum_cons, List.length_cons]
    calc |(round2 x + (l.map round2).sum) - (x + l.sum)|
        ≤ |round2 x - x| + |(l.map round2).sum - l.sum| := tri
      _ ≤ 1 / 200 + (l.length : ℚ) / 200 := add_le_add h1 ih
      _ = ((l.length + 1 : ℕ) : ℚ) / 200 := by push_cast; ring

/-- Rounding a family summing to 100 keeps the total within half a
hundredth per row of 100. -/
theorem round2_family_sum_bound {κ : Type} (keys : List κ) (u : κ → ℚ)
    (h100 : (keys.map u).sum = 100) :
    |(keys.map (fun k => round2 (u k))).sum - 100| ≤ (keys.length : ℚ) / 200 := by
  have h := sum_round2_close (keys.map u)
  rw [List.map_map, h100, List.length_map] at h
  simpa [Function.comp] using h

/-- C8: for every nonempty `food_listings` table whose rows satisfy the
schema's `CHECK (quantity > 0)`, every row of the common-food-types report
carries both percentage columns, and each percentage column — one row per
food type, a complete partition of the listings — sums to 100 up to the
per-row two-decimal rounding (at most half a hundredth per row). -/
theorem c8_percentage_columns_sum_to_100 (db : DB)
    (hne : db.food_listings ≠ [])
    (hq : ∀ f ∈ db.food_listings, 0 < f.quantity) :
    (∀ r ∈ query7Rows db,
      r.percentage_of_total_quantity.isSome ∧ r.percentage_of_listings.isSome) ∧
    |((query7Rows db).map
        (fun r => r.percentage_of_total_quantity.getD 0)).sum - 100| ≤
      ((query7Rows db).length : ℚ) / 200 ∧
    |((query7Rows db).map
        (fun r => r.percentage_of_listings.getD 0)).sum - 100| ≤
      ((query7Rows db).length : ℚ) / 200 := by
  have hcover : ∀ f ∈ db.food_listings, (fun f : FoodListing => f.food_type) f ∈
      groupKeys (fun f : FoodListing => f.food_type) db.food_listings := by
    intro f hf
    unfold groupKeys
    exact List.mem_dedup.mpr (List.mem_map_of_mem _ hf)
  have hnodup :
      (groupKeys (fun f : FoodListing => f.food_type) db.food_listings).Nodup := by
    unfold groupKeys
    exact List.nodup_dedup _
  have hgrpne : ∀ k ∈ groupKeys (fun f : FoodListing => f.food_type) db.food_listings,
      groupRows (fun f : FoodListing => f.food_type) db.food_listings k ≠ [] := by
    intro k hk
    unfold groupKeys at hk
    obtain ⟨f, hf, hfk⟩ := List.mem_map.mp (List.mem_dedup.mp hk)
    apply List.ne_nil_of_mem (a := f)
    unfold groupRows
    exact List.mem_filter.mpr ⟨hf, by simp [hfk]⟩
  have hTpos : (0 : ℤ) < (db.food_listings.map (fun f => f.quantity)).sum := by
    apply List.sum_pos
    · intro x hx
      obtain ⟨f, hf, rfl⟩ := List.mem_map.mp hx
      exact hq f hf
    · intro h
      exact hne (List.map_eq_nil_iff.mp h)
  have hTQpos :
      (0 : ℚ) < (((db.food_listings.map (fun f => f.quantity)).sum : ℤ) : ℚ) := by
    exact_mod_cast hTpos
  have hNpos : (0 : ℚ) < (db.food_listings.length : ℚ) := by
    have := List.length_pos.mpr hne
    exact_mod_cast this
  have hrowq : ∀ k ∈ groupKeys (fun f : FoodListing => f.food_type) db.food_listings,
      (q7Row db k).percentage_of_total_quantity = some (round2
        (((((groupRows (fun f : FoodListing => f.food_type) db.food_listings k).map
            (fun f => f.quantity)).sum : ℤ) : ℚ) * 100 /
          (((db.food_listings.map (fun f => f.quantity)).sum : ℤ) : ℚ))) := by
    intro k hk
    simp only [q7Row]
    rw [sqlSum_map_some _ _ (hgrpne k hk), sqlSum_map_some _ _ hne]
    simp only [pctOfTotal]
    rw [if_neg hTpos.ne']
    rfl
  have hrowl : ∀ k ∈ groupKeys (fun f : FoodListing => f.food_type) db.food_listings,
      (q7Row db k).percentage_of_listings = some (round2
        (((groupRows (fun f : FoodListing => f.food_type) db.food_listings k).length : ℚ)
          * 100 / (db.food_listings.length : ℚ))) := by
    intro k _
    simp only [q7Row]
    unfold sqlDiv
    rw [if_neg hNpos.ne']
    rfl
  have hperm := sortByLe_perm q7le (q7rowsUnsorted db)
  have hqr : query7Rows db = sortByLe q7le (q7rowsUnsorted db) := rfl
  have hunsorted : q7rowsUnsorted db =
      (groupKeys (fun f : FoodListing => f.food_type) db.food_listings).map
        (q7Row db) := rfl
  have h100q :
      ((groupKeys (fun f : FoodListing => f.food_type) db.food_listings).map
        (fun k =>
          ((((groupRows (fun f : FoodListing => f.food_type) db.food_listings k).map
              (fun f => f.quantity)).sum : ℤ) : ℚ) * 100 /
            (((db.food_listings.map (fun f => f.quantity)).sum : ℤ) : ℚ))).sum = 100 := by
    have hfibZ : ((groupKeys (fun f : FoodListing => f.food_type)
          db.food_listings).map (fun k =>
            ((groupRows (fun f : FoodListing => f.food_type)
              db.food_listings k).map (fun f => f.quantity)).sum)).sum =
        (db.food_listings.map (fun f => f.quantity)).sum :=
      sum_groups_eq_sum (fun f : FoodListing => f.food_type)
        (fun f => f.quantity) _ hnodup db.food_listings hcover
    have hpt : ∀ k ∈ groupKeys (fun f : FoodListing => f.food_type)
          db.food_listings,
        (((((groupRows (fun f : FoodListing => f.food_type)
            db.food_listings k).map (fun f => f.quantity)).sum : ℤ) : ℚ) * 100 /
          (((db.food_listings.map (fun f => f.quantity)).sum : ℤ) : ℚ)) =
        ((((groupRows (fun f : FoodListing => f.food_type)
            db.food_listings k).map (fun f => f.quantity)).sum : ℤ) : ℚ) *
          (100 / (((db.food_listings.map (fun f => f.quantity)).sum : ℤ) : ℚ)) := by
      intro k _
      ring
    rw [List.map_congr_left hpt]
    rw [sum_map_mul_right_q]
    rw [← intCast_sum_map (groupKeys (fun f : FoodListing => f.food_type)
      db.food_listings) (fun k => ((groupRows (fun f : FoodListing => f.food_type)
        db.food_listings k).map (fun f => f.quantity)).sum)]
    rw [hfibZ, mul_comm]
    exact div_mul_cancel₀ 100 hTQpos.ne'
  have h100l :
      ((groupKeys (fun f : FoodListing => f.food_type) db.food_listings).map
        (fun k =>
          ((groupRows (fun f : FoodListing => f.food_type) db.food_listings k).length : ℚ)
            * 100 / (db.food_listings.length : ℚ))).sum = 100 := by
    have hpt : ∀ k, (((groupRows (fun f : FoodListing => f.food_type)
          db.food_listings k).length : ℚ) * 100 / (db.food_listings.length : ℚ)) =
        ((groupRows (fun f : FoodListing => f.food_type) db.food_listings k).map
          (fun _ => (1 : ℚ))).sum * (100 / (db.food_listings.length : ℚ)) := by
      intro k
      rw [sum_map_one_eq_length]
      ring
    rw [List.map_congr_left (fun k _ => hpt k)]
    rw [sum_map_mul_right_q]
    rw [sum_groups_eq_sum (fun f : FoodListing => f.food_type)
      (fun _ => (1 : ℚ)) _ hnodup db.food_listings hcover]
    rw [sum_map_one_eq_length, mul_comm]
    exact div_mul_cancel₀ 100 hNpos.ne'
  refine ⟨?_, ?_, ?_⟩
  · intro r hr
    rw [hqr] at hr
    have h2 := hperm.mem_iff.mp hr
    rw [hunsorted] at h2
    obtain ⟨k, hk, rfl⟩ := List.mem_map.mp h2
    exact ⟨by simp [hrowq k hk], by simp [hrowl k hk]⟩
  · rw [hqr]
    have hsum := ((hperm.map
      (fun r : Q7Row => r.percentage_of_total_quantity.getD 0)).sum_eq)
    rw [hsum, hperm.length_eq, hunsorted, List.map_map, List.length_map]
    have hpt : ∀ k ∈ groupKeys (fun f : FoodListing => f.food_type) db.food_listings,
        ((fun r : Q7Row => r.percentage_of_total_quantity.getD 0) ∘ q7Row db) k =
          round2 (((((groupRows (fun f : FoodListing => f.food_type)
              db.food_listings k).map (fun f => f.quantity)).sum : ℤ) : ℚ) * 100 /
            (((db.food_listings.map (fun f => f.quantity)).sum : ℤ) : ℚ)) := by
      intro k hk
      simp [Function.comp, hrowq k hk]
    rw [List.map_congr_left hpt]
    exact round2_family_sum_bound _ _ h100q
  · rw [hqr]
    have hsum := ((hperm.map
      (fun r : Q7Row => r.percentage_of_listings.getD 0)).sum_eq)
    rw [hsum, hperm.length_eq, hunsorted, List.map_map, List.length_map]
    have hpt : ∀ k ∈ groupKeys (fun f : FoodListing => f.food_type) db.food_listings,
        ((fun r : Q7Row => r.percentage_of_listings.getD 0) ∘ q7Row db) k =
          round2 (((groupRows (fun f : FoodListing => f.food_type)
              db.food_listings k).length : ℚ) * 100 /
            (db.food_listings.length : ℚ)) := by
      intro k hk
      simp [Function.comp, hrowl k hk]
    rw [List.map_congr_left hpt]
    exact round2_family_sum_bound _ _ h100l

/-- A second listing so that the witness partition has two food types. -/
def c8OtherListing : FoodListing :=
  { food_id := 21, food_name := "Roti", quantity := 2,
    expiry_date := "2026-04-01", provider_id := 1,
    provider_type := "Restaurant", location := "Metro",
    food_type := "Vegetarian", meal_type := "Dinner" }

/-- A store with two listings of distinct food types (quantities 2 and 5,
both positive). -/
def c8Db : DB :=
  { providers := [], receivers := [], food_listings := [c8OtherListing, c4Listing],
    claims := [] }

/-- C8 witness: the percentage-total bound applied to the two-food-type
store. -/
theorem c8_percentage_columns_sum_to_100_witness :
    c8Db.food_listings ≠ [] ∧ (∀ f ∈ c8Db.food_listings, 0 < f.quantity) ∧
    ((∀ r ∈ query7Rows c8Db,
      r.percentage_of_total_quantity.isSome ∧ r.percentage_of_listings.isSome) ∧
    |((query7Rows c8Db).map
        (fun r => r.percentage_of_total_quantity.getD 0)).sum - 100| ≤
      ((query7Rows c8Db).length : ℚ) / 200 ∧
    |((query7Rows c8Db).map
        (fun r => r.percentage_of_listings.getD 0)).sum - 100| ≤
      ((query7Rows c8Db).length : ℚ) / 200) :=
  ⟨by decide, by decide,
    c8_percentage_columns_sum_to_100 c8Db (by decide) (by decide)⟩

end FoodWastage
